import Mathlib

/-!
Shallow embedding of the CityAssist 311 agent core
(`src/langgraph_bedrock.py`) and verification of its specification.

Python dictionaries are modelled as association lists over `Val`
(a Python value: a string, or an opaque non-string value carrying its
truthiness).  Lookup takes the first matching key, so a merge
`{**a, **b}` is modelled as the list `b ++ a` (entries of `b` shadow
entries of `a`), which has exactly the key/value semantics of the
Python merge; only `get` / `in` / `pop` / item-assignment are ever
performed on these dictionaries in the source, never iteration, so
the representation order is irrelevant.
-/

namespace CityAssist

/-- A Python value: a string, or an opaque non-string value together
with its truthiness (`bool(v)`). -/
inductive Val where
  | str (s : String)
  | obj (truthy : Bool)
deriving DecidableEq

/-- Python truthiness of a value (`bool(v)`; an empty string is falsy). -/
def Val.truthy : Val → Bool
  | .str s => !s.isEmpty
  | .obj b => b

/-- `str(v)`: how a value renders inside an f-string. -/
def Val.render : Val → String
  | .str s => s
  | .obj _ => "<object>"

/-- A Python dict, as an association list (first match wins on lookup). -/
abbrev Dict := List (String × Val)

/-- `d.get(k)` / `d[k]`: first value bound to `k`, if any. -/
def dget (d : Dict) (k : String) : Option Val :=
  (d.find? (fun p => p.1 == k)).map (fun p => p.2)

/-- `k in d`. -/
def hasKey (d : Dict) (k : String) : Bool :=
  (dget d k).isSome

/-- `d.pop(k)` (the removal part). -/
def dremove (d : Dict) (k : String) : Dict :=
  d.filter (fun p => p.1 != k)

/-- `d[k] = v`: replace in place if present, else append. -/
def dset (d : Dict) (k : String) (v : Val) : Dict :=
  if hasKey d k then d.map (fun p => if p.1 == k then (k, v) else p)
  else d ++ [(k, v)]

/-- `d[new] = d.pop(old)`, used for the per-tool field aliases. -/
def renameKey (d : Dict) (old new : String) : Dict :=
  match dget d old with
  | some v => dset (dremove d old) new v
  | none => d

/-- `not d.get(k)`: key absent or value falsy. -/
def falsyAt (d : Dict) (k : String) : Bool :=
  match dget d k with
  | some v => !v.truthy
  | none => true

/-- `{**a, **b}` up to lookup semantics: entries of `b` shadow `a`. -/
def dmerge (a b : Dict) : Dict := b ++ a

/-! ### Basic dictionary lemmas -/

theorem dget_nil (k : String) : dget [] k = none := rfl

theorem dget_append (l₁ l₂ : Dict) (k : String) :
    dget (l₁ ++ l₂) k = (dget l₁ k).or (dget l₂ k) := by
  induction l₁ with
  | nil => simp [dget]
  | cons p t ih =>
    by_cases h : p.1 == k
    · simp [dget, List.find?, h]
    · simpa [dget, List.find?, h] using ih

theorem dget_dmerge (a b : Dict) (k : String) :
    dget (dmerge a b) k = (dget b k).or (dget a k) := dget_append b a k

theorem dget_dremove_self (d : Dict) (k : String) :
    dget (dremove d k) k = none := by
  induction d with
  | nil => rfl
  | cons p t ih =>
    by_cases h : p.1 == k
    · have : (p.1 != k) = false := by simp [bne, h]
      simp only [dremove, List.filter, this]
      exact ih
    · have hne : (p.1 != k) = true := by simp [bne]; simpa using h
      simp only [dremove, List.filter, hne, dget, List.find?, h]
      exact ih

theorem dget_dremove_ne (d : Dict) (k k' : String) (h : k' ≠ k) :
    dget (dremove d k) k' = dget d k' := by
  induction d with
  | nil => rfl
  | cons p t ih =>
    by_cases hp : p.1 == k
    · have hb : (p.1 != k) = false := by simp [bne, hp]
      have hk : (p.1 == k') = false := by
        simp at hp; simp [hp]; intro hc; exact h hc.symm
      simpa [dremove, List.filter, hb, dget, List.find?, hk] using ih
    · have hb : (p.1 != k) = true := by simp [bne]; simpa using hp
      by_cases hk : p.1 == k'
      · simp [dremove, List.filter, hb, dget, List.find?, hk]
      · simpa [dremove, List.filter, hb, dget, List.find?, hk] using ih

theorem dget_mapset_self (d : Dict) (k : String) (v : Val) (h : hasKey d k = true) :
    dget (d.map (fun p => if p.1 == k then (k, v) else p)) k = some v := by
  induction d with
  | nil => simp [hasKey, dget] at h
  | cons p t ih =>
    by_cases hp : p.1 == k
    · simp [dget, List.find?, hp]
    · have ht : hasKey t k = true := by
        simpa [hasKey, dget, List.find?, hp] using h
      simpa [dget, List.find?, hp] using ih ht

theorem dget_mapset_ne (d : Dict) (k k' : String) (v : Val) (h : k' ≠ k) :
    dget (d.map (fun p => if p.1 == k then (k, v) else p)) k' = dget d k' := by
  induction d with
  | nil => rfl
  | cons p t ih =>
    by_cases hp : p.1 == k
    · have hkk' : (k == k') = false := by
        simp only [beq_eq_false_iff_ne, ne_eq]
        intro hc; exact h hc.symm
      have hpk' : (p.1 == k') = false := by
        simp only [beq_iff_eq] at hp; subst hp; exact hkk'
      simpa [dget, List.find?, hp, hkk', hpk'] using ih
    · by_cases hp' : p.1 == k'
      · simp [dget, List.find?, hp, hp']
      · simpa [dget, List.find?, hp, hp'] using ih

theorem dget_eq_none_of_not_hasKey (d : Dict) (k : String)
    (h : hasKey d k = false) : dget d k = none := by
  unfold hasKey at h
  cases hd : dget d k with
  | none => rfl
  | some v => rw [hd] at h; simp at h

theorem dget_dset_self (d : Dict) (k : String) (v : Val) :
    dget (dset d k v) k = some v := by
  unfold dset
  cases hk : hasKey d k with
  | true => simpa using dget_mapset_self d k v hk
  | false =>
    rw [if_neg (by simp [hk]), dget_append,
        dget_eq_none_of_not_hasKey d k hk]
    simp [dget, List.find?]

theorem dget_dset_ne (d : Dict) (k k' : String) (v : Val) (h : k' ≠ k) :
    dget (dset d k v) k' = dget d k' := by
  unfold dset
  cases hk : hasKey d k with
  | true => simpa using dget_mapset_ne d k k' v h
  | false =>
    rw [if_neg (by simp [hk]), dget_append]
    cases hd : dget d k' with
    | some v' => simp [hd]
    | none =>
      have hkk' : (k == k') = false := by
        simp only [beq_eq_false_iff_ne, ne_eq]
        intro hc; exact h hc.symm
      simp [hd, dget, List.find?, hkk']

/-! ### Substring machinery (Python `sub in s` and `re.search` on literal
alternations) -/

/-- Does `pat` occur as a prefix of `l`? -/
def startsWithL (pat : List Char) (l : List Char) : Bool :=
  match pat, l with
  | [], _ => true
  | _ :: _, [] => false
  | a :: pa, b :: lb => a == b && startsWithL pa lb

/-- Does `pat` occur as a contiguous run anywhere in `l`?
Models Python substring containment (`pat in s`). -/
def containsL (pat : List Char) (l : List Char) : Bool :=
  startsWithL pat l ||
    match l with
    | [] => false
    | _ :: t => containsL pat t

/-- Python `sub in s` on strings. -/
def pyContains (sub s : String) : Bool := containsL sub.data s.data

theorem startsWithL_iff (pat l : List Char) :
    startsWithL pat l = true ↔ ∃ r, l = pat ++ r := by
  induction pat generalizing l with
  | nil => simp [startsWithL]
  | cons a pa ih =>
    cases l with
    | nil => simp [startsWithL]
    | cons b lb =>
      simp only [startsWithL, Bool.and_eq_true, beq_iff_eq, ih, List.cons_append,
        List.cons.injEq]
      constructor
      · rintro ⟨hab, r, hr⟩; exact ⟨r, hab.symm, hr⟩
      · rintro ⟨r, hab, hr⟩; exact ⟨hab.symm, r, hr⟩

theorem containsL_iff (pat l : List Char) :
    containsL pat l = true ↔ ∃ l₁ l₂, l = l₁ ++ pat ++ l₂ := by
  induction l with
  | nil =>
    simp only [containsL, Bool.or_false, startsWithL_iff]
    constructor
    · rintro ⟨r, hr⟩
      exact ⟨[], r, by simpa using hr⟩
    · rintro ⟨l₁, l₂, h⟩
      cases l₁ with
      | nil => exact ⟨l₂, by simpa using h⟩
      | cons c t => simp at h
  | cons b t ih =>
    simp only [containsL, Bool.or_eq_true, startsWithL_iff, ih]
    constructor
    · rintro (⟨r, hr⟩ | ⟨l₁, l₂, h⟩)
      · exact ⟨[], r, by simpa using hr⟩
      · exact ⟨b :: l₁, l₂, by simp [h]⟩
    · rintro ⟨l₁, l₂, h⟩
      cases l₁ with
      | nil => exact Or.inl ⟨l₂, by simpa using h⟩
      | cons c t' =>
        simp only [List.cons_append, List.cons.injEq] at h
        exact Or.inr ⟨t', l₂, h.2⟩

/-! ### Helpers from the source (`is_emergency`, `_HEXLIKE`, `str.strip`) -/

/-- ASCII lowercasing of one character (code points 65-90 shift to
97-122); models the effect of `re.IGNORECASE` on the all-ASCII
emergency alternation. -/
def lowerC (c : Char) : Char :=
  if 65 ≤ c.toNat ∧ c.toNat ≤ 90 then Char.ofNat (c.toNat + 32) else c

/-- The alternatives of the regex `_EMERG_RX` in the source:
`(heart attack|gun|fire|shots fired|unconscious|stabbed|domestic violence|car crash)`. -/
def emergencyPhrases : List String :=
  ["heart attack", "gun", "fire", "shots fired", "unconscious", "stabbed",
   "domestic violence", "car crash"]

/-- `is_emergency(text)`: case-insensitive search for one of the
emergency phrases (`re.search(_EMERG_RX, text, re.IGNORECASE)`). -/
def is_emergency (text : String) : Bool :=
  emergencyPhrases.any (fun p => containsL p.data (text.data.map lowerC))

/-- Python whitespace (the code points of space, tab, newline,
carriage return, vertical tab and form feed) stripped by
`str.strip()`. -/
def isPySpace (c : Char) : Bool :=
  c.toNat == 32 || c.toNat == 9 || c.toNat == 10 ||
    c.toNat == 13 || c.toNat == 11 || c.toNat == 12

/-- `str.strip()` at the character-list level. -/
def stripChars (l : List Char) : List Char :=
  ((l.dropWhile isPySpace).reverse.dropWhile isPySpace).reverse

/-- Python `text.strip()`. -/
def pyStrip (s : String) : String := ⟨stripChars s.data⟩

/-- The character class of the regex `_HEXLIKE = ^[0-9a-fA-F-]{6,64}$`. -/
def isHexChar (c : Char) : Bool := "0123456789abcdefABCDEF-".data.contains c

/-- `_HEXLIKE.match(s)`: the whole string is 6 to 64 characters drawn
from `[0-9a-fA-F-]`. -/
def hexlike (s : String) : Bool :=
  6 ≤ s.data.length && s.data.length ≤ 64 && s.data.all isHexChar

/-! ### Argument normalization (`merge_and_normalize_args`) -/

/-- The positional argument of a tool call: `None`, a dict, or a scalar. -/
inductive Positional where
  | nothing
  | dict (d : Dict)
  | scalar (v : Val)

/-- The merge stage of `merge_and_normalize_args`: start from `kwargs`,
then lay a positional dict under it, or record a scalar under `__arg1`
(kwargs shadow positional values). -/
def mergeStage (positional : Positional) (kwargs : Dict) : Dict :=
  match positional with
  | .nothing => kwargs
  | .dict d => dmerge d kwargs
  | .scalar v => dmerge [("__arg1", v)] kwargs

/-- `merge_and_normalize_args(positional, kwargs)`: merge, then if
`__arg1` is present and none of `ticket_id`/`query`/`category` is,
classify the `__arg1` value — hex-like strings become `ticket_id`,
everything else becomes `query`. -/
def merge_and_normalize_args (positional : Positional) (kwargs : Dict) : Dict :=
  let args := mergeStage positional kwargs
  if hasKey args "__arg1" &&
      !(hasKey args "ticket_id" || hasKey args "query" || hasKey args "category") then
    match dget args "__arg1" with
    | some v =>
      let rest := dremove args "__arg1"
      match v with
      | .str s => if hexlike s then dset rest "ticket_id" (.str s)
                  else dset rest "query" (.str s)
      | .obj b => dset rest "query" (.obj b)
    | none => args
  else args

/-! ### Gateway client retry loop (`GatewayMcpClient.call_tool`) -/

/-- Outcome of one attempt of the remote call: success with joined text,
or an exception whose `str(e)` is recorded. -/
inductive Attempt where
  | ok (result : String)
  | err (msg : String)

/-- Observable trace of one `call_tool` invocation: final outcome, the
number of attempts performed, and the sleeps between attempts. -/
structure CallTrace where
  outcome : Except String String
  attempts : Nat
  delays : List ℚ

/-- The retry loop body of `call_tool`, starting at attempt number
`attempt` with current backoff `delay` (`max_attempts = 4` as in the
source); `f n` is the result of the n-th attempt. -/
def call_tool_from (f : Nat → Attempt) (attempt : Nat) (delay : ℚ)
    (acc : List ℚ) : CallTrace :=
  match f attempt with
  | .ok r => ⟨.ok r, attempt, acc.reverse⟩
  | .err e =>
    if h : pyContains "429" e = true ∧ attempt < 4 then
      call_tool_from f (attempt + 1) (delay * 2) (delay :: acc)
    else ⟨.error e, attempt, acc.reverse⟩
termination_by 4 - attempt
decreasing_by omega

/-- `call_tool`: attempts start at 1 with initial delay 0.5 seconds. -/
def call_tool (f : Nat → Attempt) : CallTrace :=
  call_tool_from f 1 (1 / 2) []

/-! ### OAuth2 token cache (`fetch_token`) -/

/-- The module-level cache `_token` / `_expiry`. -/
structure TokenState where
  token : Option String
  expiry : ℚ
deriving DecidableEq

/-- Body of a successful token-endpoint response
(`expires_in` may be absent; the source defaults it to 3600). -/
structure TokenResponse where
  access_token : String
  expires_in : Option Int

/-- Result of one `fetch_token` call: the returned token, the cache
afterwards, and how many network requests were made. -/
structure FetchResult where
  token : String
  state : TokenState
  networkCalls : Nat
deriving DecidableEq

/-- Python truthiness of the `_token` slot. -/
def tokenTruthy : Option String → Bool
  | none => false
  | some s => !s.isEmpty

/-- `fetch_token(cfg)` at time `now`, where `resp` is what the token
endpoint would answer if called. -/
def fetch_token (st : TokenState) (now : ℚ) (resp : TokenResponse) : FetchResult :=
  if tokenTruthy st.token ∧ now < st.expiry - 60 then
    ⟨st.token.getD "", st, 0⟩
  else
    ⟨resp.access_token,
     ⟨some resp.access_token, now + ((resp.expires_in.getD 3600 : Int) : ℚ)⟩, 1⟩

/-! ### Response formatters -/

/-- `bool(d.get(k))`. -/
def truthyGet (d : Dict) (k : String) : Bool :=
  match dget d k with
  | some v => v.truthy
  | none => false

/-- `str(d.get(k, dflt))` as rendered inside an f-string. -/
def getRender (d : Dict) (k : String) (dflt : String) : String :=
  match dget d k with
  | some v => v.render
  | none => dflt

/-- `d.get(k1) or d.get(k2, dflt)` as rendered inside an f-string. -/
def pyOrGet (d : Dict) (k₁ k₂ : String) (dflt : String) : String :=
  match dget d k₁ with
  | some v => if v.truthy then v.render else getRender d k₂ dflt
  | none => getRender d k₂ dflt

/-- `format_create_ticket` (the header characters are the exact
characters of the source literal). -/
def format_create_ticket (data : Dict) : String :=
  "âœ… Ticket Created\n" ++
  "- Ticket ID: " ++ getRender data "ticket_id" "N/A" ++ "\n" ++
  "- Status: " ++ getRender data "status" "N/A" ++ "\n" ++
  "- ETA: " ++ getRender data "eta_days" "N/A" ++ " day(s)"

/-- `format_ticket_status`. -/
def format_ticket_status (data : Dict) : String :=
  "ðŸ“‹ Ticket Status\n" ++
  "- Ticket ID: " ++ getRender data "ticket_id" "N/A" ++ "\n" ++
  "- Status: " ++ pyOrGet data "status" "ticket_status" "N/A" ++ "\n" ++
  "- Department: " ++ pyOrGet data "dept" "department" "N/A" ++ "\n" ++
  "- Category: " ++ getRender data "category" "N/A" ++ "\n" ++
  "- Last Updated: " ++ getRender data "updated_at" "N/A" ++ "\n" ++
  "- ETA: " ++ getRender data "eta_days" "N/A" ++ " day(s)"

/-- `format_search_kb` on a parsed dict. -/
def format_search_kb (data : Dict) : String :=
  if truthyGet data "answer" && truthyGet data "source" then
    getRender data "answer" "" ++ "\n\nâ€” Source: " ++
      getRender data "source" ""
  else if truthyGet data "answer" then getRender data "answer" ""
  else if truthyGet data "error" then getRender data "error" ""
  else "No answer found in the knowledge base."

/-- `format_send_email` on a parsed dict. -/
def format_send_email (data : Dict) : String :=
  if truthyGet data "message" then
    "ðŸ“§ " ++ getRender data "message" ""
  else "ðŸ“§ Email request processed."

/-! ### Static tool dispatch (`build_static_tools._factory._call`) -/

/-- The per-tool field aliases applied before validation
(`location`/`email` for create-ticket, `id` for status,
`email`/`contact_email`/`ticket_status` for send-email). -/
def applyAliases (tname : String) (args : Dict) : Dict :=
  if tname = "create_ticket_tool" then
    let a₁ := if !hasKey args "address" && hasKey args "location" then
        renameKey args "location" "address" else args
    if !hasKey a₁ "contact_email" && hasKey a₁ "email" then
      renameKey a₁ "email" "contact_email" else a₁
  else if tname = "get_ticket_status_tool" then
    if !hasKey args "ticket_id" && hasKey args "id" then
      renameKey args "id" "ticket_id" else args
  else if tname = "send_email_tool" then
    let a₁ := if !hasKey args "to_email" then
        (if hasKey args "email" then renameKey args "email" "to_email"
         else if hasKey args "contact_email" then
           renameKey args "contact_email" "to_email"
         else args)
      else args
    if !hasKey a₁ "status" && hasKey a₁ "ticket_status" then
      renameKey a₁ "ticket_status" "status" else a₁
  else args

/-- The required fields each tool validates before dispatching. -/
def requiredFields : String → List String
  | "create_ticket_tool" => ["category", "description", "address", "contact_email"]
  | "get_ticket_status_tool" => ["ticket_id"]
  | "search_kb_tool" => ["query"]
  | "send_email_tool" => ["to_email", "ticket_id", "category", "description", "status"]
  | _ => []

/-- `[k for k in required if not args.get(k)]`. -/
def missingOf (tname : String) (args : Dict) : List String :=
  (requiredFields tname).filter (fun k => falsyAt args k)

/-- The clarifying message returned when required fields are missing
(for the two multi-field tools it interpolates exactly the missing
list; the two single-field tools have a fixed prompt). -/
def clarifyMsg (tname : String) (missing : List String) : String :=
  if tname = "create_ticket_tool" then
    "To create a ticket I still need: " ++ String.intercalate ", " missing ++ "."
  else if tname = "get_ticket_status_tool" then
    "Please provide your 8-character ticket ID."
  else if tname = "search_kb_tool" then
    "Tell me what to search for (e.g., \u0027missed trash pickup\u0027)."
  else
    "To send the email I need: " ++ String.intercalate ", " missing ++ "."

/-- The validation stage of `_call`: `some msg` is the early return
issued when a required field is absent or falsy. -/
def validationError (tname : String) (args : Dict) : Option String :=
  let m := missingOf tname args
  if m.isEmpty then none else some (clarifyMsg tname m)

/-- What `_call` hands back to the conversation: a returned string, or
a Python exception propagating out of the function. -/
inductive DispatchOutcome where
  | reply (text : String)
  | exn (e : String)
deriving DecidableEq

/-- Observable trace of one `_call` dispatch: the outcome, whether
`fetch_token` was reached, and the arguments the gateway was called
with (`none` when no gateway call was made). -/
structure DispatchTrace where
  outcome : DispatchOutcome
  tokenFetched : Bool
  gatewayArgs : Option Dict
deriving DecidableEq

/-- Whether the trace contains a remote tool invocation. -/
def DispatchTrace.gatewayCalled (t : DispatchTrace) : Bool :=
  t.gatewayArgs.isSome

/-- The JSON-pretty-printing tail of `_call`: parse the raw gateway
text when it looks like a JSON object (`parse` models `json.loads`,
`none` standing for a parse error), then format per tool; otherwise
return the raw text. -/
def dispatchTail (tname : String) (raw : String) (parse : String → Option Dict) : String :=
  let body : Dict :=
    if startsWithL "\x7b".data (pyStrip raw).data then (parse raw).getD [] else []
  if tname == "create_ticket_tool" && !body.isEmpty then format_create_ticket body
  else if tname == "get_ticket_status_tool" && !body.isEmpty then format_ticket_status body
  else if tname == "search_kb_tool" && !body.isEmpty then format_search_kb body
  else if tname == "send_email_tool" && !body.isEmpty then format_send_email body
  else raw

/-- One dispatch through `_call`: merge and normalize the arguments,
apply the per-tool aliases and validation (an early plain-text return,
before any network activity), then fetch the token and call the
gateway; `tokenRes` and `gateway` model those two effects, an `error`
being a raised exception, which `_call` does not catch. -/
def toolDispatch (tname : String) (positional : Positional) (kwargs : Dict)
    (tokenRes : Except String String)
    (gateway : Dict → Except String String)
    (parse : String → Option Dict) : DispatchTrace :=
  let args := applyAliases tname (merge_and_normalize_args positional kwargs)
  match validationError tname args with
  | some msg => ⟨.reply msg, false, none⟩
  | none =>
    match tokenRes with
    | .error e => ⟨.exn e, true, none⟩
    | .ok _ =>
      match gateway args with
      | .error e => ⟨.exn e, true, some args⟩
      | .ok raw => ⟨.reply (dispatchTail tname raw parse), true, some args⟩

/-! ### Conversation controller (`chatbot` node and `invoke`) -/

/-- A message in the LangGraph state. -/
inductive GMsg where
  | system (content : String)
  | human (content : String)
  | ai (content : String) (hasToolCalls : Bool)
  | tool (content : String)
deriving DecidableEq

/-- `isinstance(m, SystemMessage)`. -/
def isSystemMsg : GMsg → Bool
  | .system _ => true
  | _ => false

/-- The literal `SYSTEM_PROMPT` of the source (with the exact
characters of the source literal). -/
def SYSTEM_PROMPT : String :=
  "\nYou are CityAssist, a city 311-style non-emergency assistant.  \n\n" ++
  "INTENTS â†’ TOOLS\n" ++
  "- Report an issue â†’ call create_ticket_tool\n" ++
  "- Check ticket status â†’ call get_ticket_status_tool\n" ++
  "- Ask about city services â†’ call search_kb_tool\n\n" ++
  "REPORTING\n- To create ANY ticket, collect exactly FOUR fields, one at a time:\n" ++
  "  1) Category\n  2) Description\n  3) Address (street address or landmark)\n" ++
  "  4) Contact Email\n" ++
  "- Once all are provided, call create_ticket_tool and return confirmation.\n\n" ++
  "STATUS\n" ++
  "- If user provides an 8-char ticket ID, call get_ticket_status_tool and summarize status.\n" ++
  "- If no ID, ask briefly.\n\n" ++
  "KNOWLEDGE BASE\n" ++
  "- For service questions, call search_kb_tool with userâ€™s text. Summarize and offer ticket creation.\n\n" ++
  "GUARDRAILS\n" ++
  "- If itâ€™s an emergency: reply \"Call 911 now.\" and stop.\n" ++
  "- One tool per user turn, wait for tool response before another.\n" ++
  "- Never loop endlessly. If a required field is ignored, explain why itâ€™s required and stop.\n" ++
  "- Never reset to greeting mid-convo.\n"

/-- The message list the `chatbot` node hands to the language model:
the state, with the system prompt prepended when the state is empty or
does not start with a system message. -/
def chatbot_llm_input (msgs : List GMsg) : List GMsg :=
  if (msgs.head?.map isSystemMsg).getD false then msgs
  else .system SYSTEM_PROMPT :: msgs

/-- One `chatbot` pass over the graph state: the node returns only the
model reply, which the `add_messages` reducer appends to the state. -/
def chatbot (llm : List GMsg → GMsg) (msgs : List GMsg) : List GMsg :=
  msgs ++ [llm (chatbot_llm_input msgs)]

/-- Number of system messages in a history. -/
def countSystem (msgs : List GMsg) : Nat :=
  (msgs.filter isSystemMsg).length

/-- A message of the graph output as scanned by `invoke`
(`getattr(m, "role", None)` / `getattr(m, "type", None)`). -/
structure OutMsg where
  role : Option String
  type : Option String
  content : String
deriving DecidableEq

/-- The assistant-reply test of the final scan in `invoke`. -/
def isAssistantMsg (m : OutMsg) : Bool :=
  m.role == some "assistant" || m.type == some "ai"

/-- The request payload: optional `prompt` and `inputText` entries. -/
structure Payload where
  prompt : Option String
  inputText : Option String

/-- `a or b` for an optional string against a default (Python
truthiness: an absent or empty string falls through). -/
def pyOrStr (a : Option String) (b : String) : String :=
  match a with
  | some s => if s.isEmpty then b else s
  | none => b

/-- `(payload or \x7b\x7d).get("prompt") or (payload or \x7b\x7d).get("inputText") or ""`. -/
def payloadText (p : Payload) : String :=
  pyOrStr p.prompt (pyOrStr p.inputText "")

/-- Observable result of one `invoke`: the returned text and whether
the graph (model/tools) was entered at all. -/
structure InvokeTrace where
  output : String
  graphCalled : Bool
deriving DecidableEq

/-- The `invoke` entrypoint, with the graph result supplied as an
oracle `graphOut` (only consulted when the graph is actually run). -/
def invoke (graphOut : List OutMsg) (p : Payload) : InvokeTrace :=
  let text := pyStrip (payloadText p)
  if text.data.isEmpty then ⟨"Please provide a message.", false⟩
  else if is_emergency text then ⟨"Call 911 now.", false⟩
  else
    match graphOut.reverse.find? isAssistantMsg with
    | some m => ⟨m.content, true⟩
    | none => ⟨"Sorry, I didnâ€™t catch that.", true⟩

/-! ## Verification of the specification claims -/

theorem validationError_of_missing (tname : String) (args : Dict)
    (h : missingOf tname args ≠ []) :
    validationError tname args = some (clarifyMsg tname (missingOf tname args)) := by
  unfold validationError
  have he : (missingOf tname args).isEmpty = false := by
    cases hm : missingOf tname args with
    | nil => exact absurd hm h
    | cons a t => rfl
  simp [he]

theorem validationError_of_complete (tname : String) (args : Dict)
    (h : missingOf tname args = []) :
    validationError tname args = none := by
  unfold validationError
  simp [h]

/-- C1: a dispatch whose merged, alias-normalized arguments leave a
required field absent or empty returns the clarifying message built
from exactly the missing field list (for the multi-field tools the
message interpolates precisely that list), performs no token fetch and
no gateway call. -/
theorem missing_fields_short_circuit (tname : String) (positional : Positional)
    (kwargs : Dict) (tokenRes : Except String String)
    (gateway : Dict → Except String String) (parse : String → Option Dict)
    (hmiss : missingOf tname (applyAliases tname
      (merge_and_normalize_args positional kwargs)) ≠ []) :
    toolDispatch tname positional kwargs tokenRes gateway parse =
      ⟨.reply (clarifyMsg tname (missingOf tname (applyAliases tname
        (merge_and_normalize_args positional kwargs)))), false, none⟩ := by
  simp only [toolDispatch]
  rw [validationError_of_missing _ _ hmiss]

/-- Witness for C1 at a concrete under-specified create-ticket call. -/
theorem missing_fields_short_circuit_witness :
    missingOf "create_ticket_tool" (applyAliases "create_ticket_tool"
      (merge_and_normalize_args .nothing [("category", Val.str "pothole")])) ≠ [] ∧
    toolDispatch "create_ticket_tool" .nothing [("category", Val.str "pothole")]
      (.ok "tok") (fun _ => .ok "raw") (fun _ => none) =
      ⟨.reply "To create a ticket I still need: description, address, contact_email.",
       false, none⟩ := by
  refine ⟨by decide, ?_⟩
  rw [missing_fields_short_circuit "create_ticket_tool" .nothing
    [("category", Val.str "pothole")] (.ok "tok") (fun _ => .ok "raw")
    (fun _ => none) (by decide)]
  decide

theorem call_tool_from_ok (f : Nat → Attempt) (a : Nat) (d : ℚ) (acc : List ℚ)
    (r : String) (hf : f a = .ok r) :
    call_tool_from f a d acc = ⟨.ok r, a, acc.reverse⟩ := by
  unfold call_tool_from
  rw [hf]

theorem call_tool_from_retry (f : Nat → Attempt) (a : Nat) (d : ℚ) (acc : List ℚ)
    (e : String) (hf : f a = .err e) (h429 : pyContains "429" e = true)
    (hlt : a < 4) :
    call_tool_from f a d acc = call_tool_from f (a + 1) (d * 2) (d :: acc) := by
  conv_lhs => unfold call_tool_from
  rw [hf]
  dsimp only
  rw [dif_pos ⟨h429, hlt⟩]

theorem call_tool_from_stop (f : Nat → Attempt) (a : Nat) (d : ℚ) (acc : List ℚ)
    (e : String) (hf : f a = .err e)
    (h : ¬(pyContains "429" e = true ∧ a < 4)) :
    call_tool_from f a d acc = ⟨.error e, a, acc.reverse⟩ := by
  conv_lhs => unfold call_tool_from
  rw [hf]
  dsimp only
  rw [dif_neg h]

/-- C2: when every attempt raises a rate-limit (429) error, `call_tool`
fails after exactly 4 attempts (1 initial + 3 retries) with strictly
increasing delays 0.5 s, 1 s, 2 s (start 0.5 in the 0.5 to 0.7 band,
multiplier 2); a non-429 failure propagates immediately with no retry
and no sleep. -/
theorem gateway_retry_policy (f : Nat → Attempt) :
    ((∀ n, 1 ≤ n → n ≤ 4 → ∃ e, f n = .err e ∧ pyContains "429" e = true) →
      (call_tool f).attempts = 4 ∧
      (call_tool f).delays = [1 / 2, 1, 2] ∧
      List.Chain' (· < ·) (call_tool f).delays ∧
      (∃ e, f 4 = .err e ∧ (call_tool f).outcome = .error e)) ∧
    (∀ e, f 1 = .err e → pyContains "429" e = false →
      call_tool f = ⟨.error e, 1, []⟩) := by
  constructor
  · intro h
    obtain ⟨e₁, hf₁, h₁⟩ := h 1 (by norm_num) (by norm_num)
    obtain ⟨e₂, hf₂, h₂⟩ := h 2 (by norm_num) (by norm_num)
    obtain ⟨e₃, hf₃, h₃⟩ := h 3 (by norm_num) (by norm_num)
    obtain ⟨e₄, hf₄, h₄⟩ := h 4 (by norm_num) (by norm_num)
    have hc : call_tool f = ⟨.error e₄, 4, [1 / 2, 1, 2]⟩ := by
      unfold call_tool
      rw [call_tool_from_retry f 1 _ _ e₁ hf₁ h₁ (by norm_num),
          call_tool_from_retry f 2 _ _ e₂ hf₂ h₂ (by norm_num),
          call_tool_from_retry f 3 _ _ e₃ hf₃ h₃ (by norm_num),
          call_tool_from_stop f 4 _ _ e₄ hf₄ (by simp)]
      norm_num
    refine ⟨by rw [hc], by rw [hc], ?_, e₄, hf₄, by rw [hc]⟩
    rw [hc]
    refine List.Chain'.cons (by norm_num) (List.Chain'.cons (by norm_num) ?_)
    exact List.chain'_singleton 2
  · intro e hf h429
    unfold call_tool
    rw [call_tool_from_stop f 1 _ _ e hf (by simp [h429])]
    rfl

/-- Witness for C2: persistent 429s stop after 4 attempts with delays
0.5, 1, 2; a fatal error stops at attempt 1 with no sleeps. -/
theorem gateway_retry_policy_witness :
    (call_tool (fun _ => Attempt.err "HTTP 429 throttled")).attempts = 4 ∧
    (call_tool (fun _ => Attempt.err "HTTP 429 throttled")).delays = [1 / 2, 1, 2] ∧
    call_tool (fun _ => Attempt.err "boom") = ⟨.error "boom", 1, []⟩ := by
  obtain ⟨h1, -⟩ := gateway_retry_policy (fun _ => Attempt.err "HTTP 429 throttled")
  obtain ⟨ha, hd, -, -⟩ := h1 (fun n _ _ => ⟨"HTTP 429 throttled", rfl, by decide⟩)
  exact ⟨ha, hd,
    (gateway_retry_policy (fun _ => Attempt.err "boom")).2 "boom" rfl (by decide)⟩

/-- C3: `fetch_token` returns the cached token with zero network calls
whenever a token is cached and `now < expiry - 60`; otherwise it makes
exactly one exchange, caches the returned `access_token` and sets the
expiry to `now + expires_in`; hence two calls inside the validity
window make exactly one network call in total. -/
theorem tokenTruthy_some (t : String) (h : t ≠ "") :
    tokenTruthy (some t) = true := by
  have hb : t.isEmpty = false := by
    cases hb : t.isEmpty with
    | false => rfl
    | true => exact absurd ((String.isEmpty_iff t).mp hb) h
  simp [tokenTruthy, hb]

theorem token_cache_policy :
    (∀ (st : TokenState) (now : ℚ) (resp : TokenResponse) (t : String),
      st.token = some t → t ≠ "" → now < st.expiry - 60 →
      fetch_token st now resp = ⟨t, st, 0⟩) ∧
    (∀ (st : TokenState) (now : ℚ) (resp : TokenResponse) (e : Int),
      ¬(tokenTruthy st.token = true ∧ now < st.expiry - 60) →
      resp.expires_in = some e →
      fetch_token st now resp =
        ⟨resp.access_token, ⟨some resp.access_token, now + (e : ℚ)⟩, 1⟩) ∧
    (∀ (st : TokenState) (t₀ t₁ : ℚ) (resp : TokenResponse) (e : Int),
      ¬(tokenTruthy st.token = true ∧ t₀ < st.expiry - 60) →
      resp.expires_in = some e → resp.access_token ≠ "" →
      t₁ < (t₀ + (e : ℚ)) - 60 →
      (fetch_token st t₀ resp).networkCalls +
        (fetch_token (fetch_token st t₀ resp).state t₁ resp).networkCalls = 1 ∧
      (fetch_token (fetch_token st t₀ resp).state t₁ resp).token =
        resp.access_token) := by
  have hfresh : ∀ (st : TokenState) (now : ℚ) (resp : TokenResponse) (e : Int),
      ¬(tokenTruthy st.token = true ∧ now < st.expiry - 60) →
      resp.expires_in = some e →
      fetch_token st now resp =
        ⟨resp.access_token, ⟨some resp.access_token, now + (e : ℚ)⟩, 1⟩ := by
    intro st now resp e h he
    unfold fetch_token
    rw [if_neg h]
    simp [he]
  refine ⟨?_, hfresh, ?_⟩
  · intro st now resp t ht hne hlt
    unfold fetch_token
    rw [if_pos ⟨by rw [ht]; exact tokenTruthy_some t hne, hlt⟩, ht]
    rfl
  · intro st t₀ t₁ resp e hmiss he hne hwin
    rw [hfresh st t₀ resp e hmiss he]
    have hhit : fetch_token ⟨some resp.access_token, t₀ + (e : ℚ)⟩ t₁ resp =
        ⟨resp.access_token, ⟨some resp.access_token, t₀ + (e : ℚ)⟩, 0⟩ := by
      unfold fetch_token
      rw [if_pos ⟨tokenTruthy_some _ hne, hwin⟩]
      rfl
    rw [hhit]
    exact ⟨rfl, rfl⟩

/-- Witness for C3: a cache hit, a cache miss, and a miss-then-hit pair
at concrete times. -/
theorem token_cache_policy_witness :
    fetch_token ⟨some "tok", 1000⟩ 100 ⟨"fresh", some 3600⟩ = ⟨"tok", ⟨some "tok", 1000⟩, 0⟩ ∧
    fetch_token ⟨none, 0⟩ 100 ⟨"fresh", some 3600⟩ = ⟨"fresh", ⟨some "fresh", 3700⟩, 1⟩ ∧
    (fetch_token ⟨none, 0⟩ 100 ⟨"fresh", some 3600⟩).networkCalls +
      (fetch_token (fetch_token ⟨none, 0⟩ 100 ⟨"fresh", some 3600⟩).state 200
        ⟨"fresh", some 3600⟩).networkCalls = 1 := by
  obtain ⟨hhit, hfresh, hpair⟩ := token_cache_policy
  refine ⟨hhit _ _ _ "tok" rfl (by decide) (by norm_num), ?_, ?_⟩
  · have := hfresh ⟨none, 0⟩ 100 ⟨"fresh", some 3600⟩ 3600
      (by simp [tokenTruthy]) rfl
    rw [this]
    norm_num
  · exact (hpair ⟨none, 0⟩ 100 200 ⟨"fresh", some 3600⟩ 3600
      (by simp [tokenTruthy]) rfl (by decide) (by norm_num)).1

/-- C10: when the graph output contains no assistant/AI message (and a
non-empty, non-emergency input actually entered the graph), `invoke`
returns the fixed fallback apology string. -/
theorem fallback_when_no_assistant (g : List OutMsg) (p : Payload)
    (hne : (pyStrip (payloadText p)).data ≠ [])
    (hem : is_emergency (pyStrip (payloadText p)) = false)
    (hai : ∀ m ∈ g, isAssistantMsg m = false) :
    invoke g p = ⟨"Sorry, I didnâ€™t catch that.", true⟩ := by
  unfold invoke
  rw [if_neg (by simpa using hne), if_neg (by simp [hem])]
  have hfind : g.reverse.find? isAssistantMsg = none := by
    rw [List.find?_eq_none]
    intro m hm
    simp [hai m (List.mem_reverse.mp hm)]
  rw [hfind]

/-- Witness for C10 at a concrete graph output with only human and tool
messages. -/
theorem fallback_when_no_assistant_witness :
    invoke [⟨some "user", none, "hello"⟩, ⟨none, some "tool", "data"⟩]
      ⟨some "hello", none⟩ = ⟨"Sorry, I didnâ€™t catch that.", true⟩ :=
  fallback_when_no_assistant _ _ (by decide) (by decide) (by decide)

/-- `isinstance(v, str) and _HEXLIKE.match(v)`: does the positional
value look like a ticket identifier? -/
def tokenLike : Val → Bool
  | .str s => hexlike s
  | .obj _ => false

theorem dget_renameKey_other (d : Dict) (old new k : String)
    (h1 : k ≠ old) (h2 : k ≠ new) :
    dget (renameKey d old new) k = dget d k := by
  unfold renameKey
  cases hv : dget d old with
  | none => rfl
  | some v => rw [dget_dset_ne _ _ _ _ h2, dget_dremove_ne _ _ _ h1]

theorem dget_applyAliases_arg1 (tname : String) (args : Dict) :
    dget (applyAliases tname args) "__arg1" = dget args "__arg1" := by
  have h₁ : ∀ d, dget (renameKey d "location" "address") "__arg1" = dget d "__arg1" :=
    fun d => dget_renameKey_other d _ _ _ (by decide) (by decide)
  have h₂ : ∀ d, dget (renameKey d "email" "contact_email") "__arg1" = dget d "__arg1" :=
    fun d => dget_renameKey_other d _ _ _ (by decide) (by decide)
  have h₃ : ∀ d, dget (renameKey d "id" "ticket_id") "__arg1" = dget d "__arg1" :=
    fun d => dget_renameKey_other d _ _ _ (by decide) (by decide)
  have h₄ : ∀ d, dget (renameKey d "email" "to_email") "__arg1" = dget d "__arg1" :=
    fun d => dget_renameKey_other d _ _ _ (by decide) (by decide)
  have h₅ : ∀ d, dget (renameKey d "contact_email" "to_email") "__arg1" = dget d "__arg1" :=
    fun d => dget_renameKey_other d _ _ _ (by decide) (by decide)
  have h₆ : ∀ d, dget (renameKey d "ticket_status" "status") "__arg1" = dget d "__arg1" :=
    fun d => dget_renameKey_other d _ _ _ (by decide) (by decide)
  unfold applyAliases
  split_ifs <;>
    first
      | rfl
      | simp only [apply_ite (fun d => dget d "__arg1"), h₁, h₂, h₃, h₄, h₅, h₆,
          ite_self]

theorem hasKey_mergeStage_scalar (v : Val) (kwargs : Dict) (k : String)
    (hk : k ≠ "__arg1") :
    hasKey (mergeStage (.scalar v) kwargs) k = hasKey kwargs k := by
  show hasKey (kwargs ++ [("__arg1", v)]) k = hasKey kwargs k
  unfold hasKey
  rw [dget_append]
  cases hd : dget kwargs k with
  | some w => rfl
  | none =>
    have : dget [("__arg1", v)] k = none := by
      have : ("__arg1" == k) = false := by
        simp only [beq_eq_false_iff_ne, ne_eq]
        intro hc; exact hk hc.symm
      simp [dget, List.find?, this]
    rw [this]
    rfl

theorem dget_mergeStage_scalar_arg1 (v : Val) (kwargs : Dict)
    (h : hasKey kwargs "__arg1" = false) :
    dget (mergeStage (.scalar v) kwargs) "__arg1" = some v := by
  show dget (kwargs ++ [("__arg1", v)]) "__arg1" = some v
  rw [dget_append, dget_eq_none_of_not_hasKey kwargs _ h]
  rfl

/-- C5: with no conflicting keyword fields, a single unnamed positional
value is classified heuristically (hex-like 6-64 character strings bind
to `ticket_id`, everything else to `query`), and keyword arguments
always take precedence over positional values in the merge. -/
theorem positional_classification (v : Val) (kwargs : Dict)
    (hno1 : hasKey kwargs "__arg1" = false)
    (hno2 : hasKey kwargs "ticket_id" = false)
    (hno3 : hasKey kwargs "query" = false)
    (hno4 : hasKey kwargs "category" = false) :
    (tokenLike v = true →
      dget (merge_and_normalize_args (.scalar v) kwargs) "ticket_id" = some v ∧
      dget (merge_and_normalize_args (.scalar v) kwargs) "__arg1" = none) ∧
    (tokenLike v = false →
      dget (merge_and_normalize_args (.scalar v) kwargs) "query" = some v ∧
      dget (merge_and_normalize_args (.scalar v) kwargs) "__arg1" = none) ∧
    (∀ (kw : Dict) (pos : Positional) (k : String), hasKey kw k = true →
      dget (mergeStage pos kw) k = dget kw k) := by
  have hget1 : dget (mergeStage (.scalar v) kwargs) "__arg1" = some v :=
    dget_mergeStage_scalar_arg1 v kwargs hno1
  have hkT : hasKey (mergeStage (.scalar v) kwargs) "ticket_id" = false := by
    rw [hasKey_mergeStage_scalar v kwargs "ticket_id" (by decide)]; exact hno2
  have hkQ : hasKey (mergeStage (.scalar v) kwargs) "query" = false := by
    rw [hasKey_mergeStage_scalar v kwargs "query" (by decide)]; exact hno3
  have hkC : hasKey (mergeStage (.scalar v) kwargs) "category" = false := by
    rw [hasKey_mergeStage_scalar v kwargs "category" (by decide)]; exact hno4
  have hk1 : hasKey (mergeStage (.scalar v) kwargs) "__arg1" = true := by
    unfold hasKey
    rw [hget1]
    rfl
  refine ⟨?_, ?_, ?_⟩
  · intro htok
    cases v with
    | obj b => simp [tokenLike] at htok
    | str s =>
      have hx : hexlike s = true := htok
      have hm : merge_and_normalize_args (.scalar (Val.str s)) kwargs =
          dset (dremove (mergeStage (.scalar (Val.str s)) kwargs) "__arg1")
            "ticket_id" (Val.str s) := by
        simp only [merge_and_normalize_args, hk1, hkT, hkQ, hkC, hget1, hx]
        simp
      rw [hm]
      exact ⟨dget_dset_self _ _ _, by
        rw [dget_dset_ne _ _ "__arg1" _ (by decide), dget_dremove_self]⟩
  · intro htok
    cases v with
    | obj b =>
      have hm : merge_and_normalize_args (.scalar (Val.obj b)) kwargs =
          dset (dremove (mergeStage (.scalar (Val.obj b)) kwargs) "__arg1")
            "query" (Val.obj b) := by
        simp only [merge_and_normalize_args, hk1, hkT, hkQ, hkC, hget1]
        simp
      rw [hm]
      exact ⟨dget_dset_self _ _ _, by
        rw [dget_dset_ne _ _ "__arg1" _ (by decide), dget_dremove_self]⟩
    | str s =>
      have hx : hexlike s = false := htok
      have hm : merge_and_normalize_args (.scalar (Val.str s)) kwargs =
          dset (dremove (mergeStage (.scalar (Val.str s)) kwargs) "__arg1")
            "query" (Val.str s) := by
        simp only [merge_and_normalize_args, hk1, hkT, hkQ, hkC, hget1, hx]
        simp
      rw [hm]
      exact ⟨dget_dset_self _ _ _, by
        rw [dget_dset_ne _ _ "__arg1" _ (by decide), dget_dremove_self]⟩
  · intro kw pos k hk
    cases pos with
    | nothing => rfl
    | dict d =>
      show dget (kw ++ d) k = dget kw k
      rw [dget_append]
      cases hd : dget kw k with
      | some w => rfl
      | none =>
        unfold hasKey at hk
        rw [hd] at hk
        simp at hk
    | scalar w =>
      show dget (kw ++ [("__arg1", w)]) k = dget kw k
      rw [dget_append]
      cases hd : dget kw k with
      | some u => rfl
      | none =>
        unfold hasKey at hk
        rw [hd] at hk
        simp at hk

/-- Witness for C5: a hex-like id binds to `ticket_id`, free text binds
to `query`, and a keyword value shadows the positional dict value. -/
theorem positional_classification_witness :
    dget (merge_and_normalize_args (.scalar (Val.str "6e63bbbe")) []) "ticket_id" =
      some (Val.str "6e63bbbe") ∧
    dget (merge_and_normalize_args (.scalar (Val.str "missed trash pickup")) []) "query" =
      some (Val.str "missed trash pickup") ∧
    dget (mergeStage (.dict [("query", Val.str "positional")])
      [("query", Val.str "keyword")]) "query" = some (Val.str "keyword") := by
  refine ⟨?_, ?_, ?_⟩
  · exact ((positional_classification (Val.str "6e63bbbe") [] rfl rfl rfl rfl).1
      (by decide)).1
  · exact ((positional_classification (Val.str "missed trash pickup") []
      rfl rfl rfl rfl).2.1 (by decide)).1
  · exact (positional_classification (Val.str "x") [] rfl rfl rfl rfl).2.2
      [("query", Val.str "keyword")] (.dict [("query", Val.str "positional")])
      "query" (by decide)

/-- C9: when `ticket_id`, `query` or `category` is already present in
the merged mapping, the normalizer skips the positional heuristic,
leaves the positional value under `__arg1`, and a dispatch that passes
validation sends the gateway arguments still containing `__arg1`. -/
theorem conflict_skips_heuristic (v : Val) (kwargs : Dict) (tname : String)
    (tok : String) (gateway : Dict → Except String String)
    (parse : String → Option Dict)
    (hnoarg : hasKey kwargs "__arg1" = false)
    (hconf : (hasKey kwargs "ticket_id" || hasKey kwargs "query" ||
      hasKey kwargs "category") = true) :
    merge_and_normalize_args (.scalar v) kwargs = mergeStage (.scalar v) kwargs ∧
    dget (merge_and_normalize_args (.scalar v) kwargs) "__arg1" = some v ∧
    (validationError tname (applyAliases tname
        (merge_and_normalize_args (.scalar v) kwargs)) = none →
      ∃ args, (toolDispatch tname (.scalar v) kwargs (.ok tok) gateway
          parse).gatewayArgs = some args ∧ dget args "__arg1" = some v) := by
  have hskip : merge_and_normalize_args (.scalar v) kwargs =
      mergeStage (.scalar v) kwargs := by
    have hcond : (hasKey (mergeStage (.scalar v) kwargs) "ticket_id" ||
        hasKey (mergeStage (.scalar v) kwargs) "query" ||
        hasKey (mergeStage (.scalar v) kwargs) "category") = true := by
      rw [hasKey_mergeStage_scalar v kwargs "ticket_id" (by decide),
          hasKey_mergeStage_scalar v kwargs "query" (by decide),
          hasKey_mergeStage_scalar v kwargs "category" (by decide)]
      exact hconf
    simp only [merge_and_normalize_args, hcond]
    simp
  have hget1 : dget (merge_and_normalize_args (.scalar v) kwargs) "__arg1" = some v := by
    rw [hskip]
    exact dget_mergeStage_scalar_arg1 v kwargs hnoarg
  refine ⟨hskip, hget1, ?_⟩
  intro hval
  refine ⟨applyAliases tname (merge_and_normalize_args (.scalar v) kwargs), ?_,
    by rw [dget_applyAliases_arg1]; exact hget1⟩
  simp only [toolDispatch, hval]
  cases gateway (applyAliases tname (merge_and_normalize_args (.scalar v) kwargs)) <;> rfl

/-- Witness for C9: a conflicting `query` keyword makes the normalizer
keep the positional value under `__arg1` all the way to the gateway. -/
theorem conflict_skips_heuristic_witness :
    hasKey [("query", Val.str "foo")] "__arg1" = false ∧
    (hasKey [("query", Val.str "foo")] "ticket_id" ||
      hasKey [("query", Val.str "foo")] "query" ||
      hasKey [("query", Val.str "foo")] "category") = true ∧
    validationError "search_kb_tool" (applyAliases "search_kb_tool"
      (merge_and_normalize_args (.scalar (Val.str "hello")) [("query", Val.str "foo")])) = none ∧
    (∃ args, (toolDispatch "search_kb_tool" (.scalar (Val.str "hello"))
        [("query", Val.str "foo")] (.ok "tok") (fun _ => .ok "raw")
        (fun _ => none)).gatewayArgs = some args ∧
      dget args "__arg1" = some (Val.str "hello")) := by
  refine ⟨rfl, rfl, by decide, ?_⟩
  exact (conflict_skips_heuristic (Val.str "hello") [("query", Val.str "foo")]
    "search_kb_tool" "tok" (fun _ => .ok "raw") (fun _ => none)
    rfl rfl).2.2 (by decide)

/-! ### C6: error propagation at the tool boundary -/

/-- C6 counterexample: a gateway failure on a fully validated
search-kb dispatch leaves `_call` as an exception (the source wraps
only the JSON-parsing step in `try`), so the claim that every auth or
gateway failure is converted to conversational text at the Tool
Registry boundary is false on the code. -/
theorem gateway_exception_counterexample :
    toolDispatch "search_kb_tool" .nothing [("query", Val.str "x")] (.ok "tok")
      (fun _ => .error "GatewayError 500") (fun _ => none) =
    ⟨.exn "GatewayError 500", true, some [("query", Val.str "x")]⟩ := rfl

/-- C6 amended: missing-field validation failures are returned as plain
conversational text with no network activity, but a token-fetch failure
or a gateway failure propagates out of the dispatch as an exception. -/
theorem error_boundary_amended (tname : String) (positional : Positional)
    (kwargs : Dict) (gateway : Dict → Except String String)
    (parse : String → Option Dict) (tok e : String) :
    (validationError tname (applyAliases tname
        (merge_and_normalize_args positional kwargs)) = none →
      toolDispatch tname positional kwargs (.error e) gateway parse =
        ⟨.exn e, true, none⟩) ∧
    (validationError tname (applyAliases tname
        (merge_and_normalize_args positional kwargs)) = none →
      gateway (applyAliases tname (merge_and_normalize_args positional kwargs)) =
        .error e →
      toolDispatch tname positional kwargs (.ok tok) gateway parse =
        ⟨.exn e, true,
         some (applyAliases tname (merge_and_normalize_args positional kwargs))⟩) ∧
    (∀ msg, validationError tname (applyAliases tname
        (merge_and_normalize_args positional kwargs)) = some msg →
      toolDispatch tname positional kwargs (.error e) gateway parse =
        ⟨.reply msg, false, none⟩) := by
  refine ⟨?_, ?_, ?_⟩
  · intro hval
    simp only [toolDispatch, hval]
  · intro hval hgw
    simp only [toolDispatch, hval, hgw]
  · intro msg hval
    simp only [toolDispatch, hval]

/-- Witness for the amended C6 at concrete dispatches. -/
theorem error_boundary_amended_witness :
    toolDispatch "search_kb_tool" .nothing [("query", Val.str "x")]
      (.error "AuthError") (fun _ => .ok "raw") (fun _ => none) =
      ⟨.exn "AuthError", true, none⟩ ∧
    toolDispatch "search_kb_tool" .nothing [] (.error "AuthError")
      (fun _ => .ok "raw") (fun _ => none) =
      ⟨.reply "Tell me what to search for (e.g., 'missed trash pickup').",
       false, none⟩ := by
  have h := error_boundary_amended "search_kb_tool" .nothing
    [("query", Val.str "x")] (fun _ => .ok "raw") (fun _ => none) "tok" "AuthError"
  have h₂ := error_boundary_amended "search_kb_tool" .nothing []
    (fun _ => .ok "raw") (fun _ => none) "tok" "AuthError"
  exact ⟨h.1 (by decide), h₂.2.2 _ (by decide)⟩

/-! ### C7: system-message seeding in the chatbot node -/

/-- C7 counterexample: a history that does not start with a system
message but contains one later yields two system messages in the list
the chatbot node hands to the model, so the claim as stated (exactly
one system message after one pass) is false. -/
theorem system_seed_counterexample :
    (([GMsg.human "hi", GMsg.system "later"].head?.map isSystemMsg).getD false)
      = false ∧
    countSystem (chatbot_llm_input [GMsg.human "hi", GMsg.system "later"]) = 2 :=
  ⟨rfl, rfl⟩

/-- C7 amended: for a history containing no system message at all, the
list the chatbot node hands to the model has exactly one system
message, placed first; the node itself only appends the model reply to
the persisted state (the seeding is recomputed per pass, not stored). -/
theorem system_seed_amended (msgs : List GMsg) (llm : List GMsg → GMsg)
    (h : ∀ m ∈ msgs, isSystemMsg m = false) :
    countSystem (chatbot_llm_input msgs) = 1 ∧
    (chatbot_llm_input msgs).head? = some (.system SYSTEM_PROMPT) ∧
    chatbot llm msgs = msgs ++ [llm (chatbot_llm_input msgs)] := by
  have hpre : chatbot_llm_input msgs = .system SYSTEM_PROMPT :: msgs := by
    unfold chatbot_llm_input
    cases msgs with
    | nil => rfl
    | cons m t =>
      rw [if_neg]
      simp only [List.head?_cons, Option.map_some, Option.getD_some]
      simp [h m (List.mem_cons_self m t)]
  have hflt : msgs.filter isSystemMsg = [] :=
    List.filter_eq_nil_iff.mpr (fun m hm => by simp [h m hm])
  refine ⟨?_, by rw [hpre]; rfl, rfl⟩
  rw [hpre]
  unfold countSystem
  rw [List.filter_cons_of_pos (by rfl), hflt]
  rfl

/-- Witness for the amended C7 on a single-human history. -/
theorem system_seed_amended_witness :
    countSystem (chatbot_llm_input [GMsg.human "hello"]) = 1 ∧
    (chatbot_llm_input [GMsg.human "hello"]).head? =
      some (.system SYSTEM_PROMPT) ∧
    chatbot (fun _ => GMsg.ai "ok" false) [GMsg.human "hello"] =
      [GMsg.human "hello"] ++
        [(fun _ => GMsg.ai "ok" false) (chatbot_llm_input [GMsg.human "hello"])] :=
  system_seed_amended [GMsg.human "hello"] (fun _ => GMsg.ai "ok" false)
    (by decide)

/-! ### C8: result formatter behaviour on absent fields -/

theorem getRender_none (d : Dict) (k dflt : String) (h : dget d k = none) :
    getRender d k dflt = dflt := by
  unfold getRender
  rw [h]

theorem getRender_some (d : Dict) (k dflt : String) (v : Val)
    (h : dget d k = some v) : getRender d k dflt = v.render := by
  unfold getRender
  rw [h]

theorem pyContains_of_eq_append (a x y s : String) (h : s = x ++ a ++ y) :
    pyContains a s = true := by
  subst h
  rw [pyContains, containsL_iff]
  exact ⟨x.data, y.data, by simp [String.data_append]⟩

theorem startsWithL_of_eq_append (a s : String) (y : String) (h : s = a ++ y) :
    startsWithL a.data s.data = true := by
  subst h
  rw [startsWithL_iff]
  exact ⟨y.data, by simp [String.data_append]⟩

/-- C8 counterexample: `format_create_ticket` on an empty result still
emits the `Ticket ID` labelled line, rendering the absent field as
`N/A` instead of omitting the line as the claim states. -/
theorem formatter_absent_line_counterexample :
    dget ([] : Dict) "ticket_id" = none ∧
    pyContains "- Ticket ID: N/A" (format_create_ticket []) = true ∧
    format_create_ticket [] =
      "âœ… Ticket Created\n- Ticket ID: N/A\n- Status: N/A\n- ETA: N/A day(s)" :=
  ⟨rfl, by decide, by decide⟩

/-- C8 amended: each formatter emits its fixed labelled lines in a
stable order (the fixed header comes first); a field absent from the
result is rendered with the `N/A` placeholder rather than omitted, and
a present field is rendered with its own value, never a fabricated
one. -/
theorem formatter_fixed_lines (data : Dict) (s : String) :
    startsWithL "âœ… Ticket Created\n".data (format_create_ticket data).data
      = true ∧
    (dget data "ticket_id" = none →
      pyContains "- Ticket ID: N/A" (format_create_ticket data) = true) ∧
    (dget data "ticket_id" = some (.str s) →
      pyContains ("- Ticket ID: " ++ s) (format_create_ticket data) = true) ∧
    (dget data "eta_days" = none →
      pyContains "- ETA: N/A day(s)" (format_create_ticket data) = true) ∧
    (dget data "status" = none → dget data "ticket_status" = none →
      pyContains "- Status: N/A" (format_ticket_status data) = true) ∧
    (dget data "status" = some (.str s) → s ≠ "" →
      pyContains ("- Status: " ++ s) (format_ticket_status data) = true) := by
  refine ⟨?_, ?_, ?_, ?_, ?_, ?_⟩
  · unfold format_create_ticket
    refine startsWithL_of_eq_append _ _ ("- Ticket ID: " ++
      getRender data "ticket_id" "N/A" ++ "\n" ++ "- Status: " ++
      getRender data "status" "N/A" ++ "\n" ++ "- ETA: " ++
      getRender data "eta_days" "N/A" ++ " day(s)") ?_
    simp only [String.append_assoc]
  · intro h
    unfold format_create_ticket
    rw [getRender_none _ _ _ h]
    show pyContains ("- Ticket ID: " ++ "N/A") _ = true
    refine pyContains_of_eq_append _ "âœ… Ticket Created\n"
      ("\n" ++ "- Status: " ++ getRender data "status" "N/A" ++ "\n" ++
        "- ETA: " ++ getRender data "eta_days" "N/A" ++ " day(s)") _ ?_
    simp only [String.append_assoc]
  · intro h
    unfold format_create_ticket
    rw [getRender_some _ _ _ _ h]
    show pyContains ("- Ticket ID: " ++ s) _ = true
    refine pyContains_of_eq_append _ "âœ… Ticket Created\n"
      ("\n" ++ "- Status: " ++ getRender data "status" "N/A" ++ "\n" ++
        "- ETA: " ++ getRender data "eta_days" "N/A" ++ " day(s)") _ ?_
    simp only [String.append_assoc, Val.render]
  · intro h
    unfold format_create_ticket
    rw [getRender_none _ _ _ h]
    show pyContains ("- ETA: " ++ "N/A" ++ " day(s)") _ = true
    refine pyContains_of_eq_append _
      ("âœ… Ticket Created\n" ++ "- Ticket ID: " ++
        getRender data "ticket_id" "N/A" ++ "\n" ++ "- Status: " ++
        getRender data "status" "N/A" ++ "\n") "" _ ?_
    simp only [String.append_assoc, String.append_empty]
  · intro h h'
    unfold format_ticket_status
    have hor : pyOrGet data "status" "ticket_status" "N/A" = "N/A" := by
      unfold pyOrGet
      rw [h, getRender_none _ _ _ h']
    rw [hor]
    show pyContains ("- Status: " ++ "N/A") _ = true
    refine pyContains_of_eq_append _
      ("ðŸ“‹ Ticket Status\n" ++ "- Ticket ID: " ++
        getRender data "ticket_id" "N/A" ++ "\n")
      ("\n" ++ "- Department: " ++ pyOrGet data "dept" "department" "N/A" ++
        "\n" ++ "- Category: " ++ getRender data "category" "N/A" ++ "\n" ++
        "- Last Updated: " ++ getRender data "updated_at" "N/A" ++ "\n" ++
        "- ETA: " ++ getRender data "eta_days" "N/A" ++ " day(s)") _ ?_
    simp only [String.append_assoc]
  · intro h hs
    unfold format_ticket_status
    have htr : (Val.str s).truthy = true := by
      simp only [Val.truthy]
      cases hb : s.isEmpty with
      | false => rfl
      | true => exact absurd ((String.isEmpty_iff s).mp hb) hs
    have hor : pyOrGet data "status" "ticket_status" "N/A" = s := by
      simp [pyOrGet, h, htr, Val.render]
    rw [hor]
    show pyContains ("- Status: " ++ s) _ = true
    refine pyContains_of_eq_append _
      ("ðŸ“‹ Ticket Status\n" ++ "- Ticket ID: " ++
        getRender data "ticket_id" "N/A" ++ "\n")
      ("\n" ++ "- Department: " ++ pyOrGet data "dept" "department" "N/A" ++
        "\n" ++ "- Category: " ++ getRender data "category" "N/A" ++ "\n" ++
        "- Last Updated: " ++ getRender data "updated_at" "N/A" ++ "\n" ++
        "- ETA: " ++ getRender data "eta_days" "N/A" ++ " day(s)") _ ?_
    simp only [String.append_assoc]

/-- Witness for the amended C8: a populated field renders its own
value, an absent one renders `N/A`. -/
theorem formatter_fixed_lines_witness :
    pyContains "- Ticket ID: abc123" (format_create_ticket
      [("ticket_id", Val.str "abc123")]) = true ∧
    pyContains "- Status: N/A" (format_ticket_status
      [("ticket_id", Val.str "abc123")]) = true := by
  have h := formatter_fixed_lines [("ticket_id", Val.str "abc123")] "abc123"
  exact ⟨h.2.2.1 (by decide), h.2.2.2.2.1 (by decide) (by decide)⟩

/-! ### C4: emergency short-circuit -/

theorem toNat_ofNat_valid (n : Nat) (h : n.isValidChar) :
    (Char.ofNat n).toNat = n := by
  unfold Char.ofNat
  rw [dif_pos h]
  rfl

theorem lowerC_space (c : Char) : isPySpace (lowerC c) = isPySpace c := by
  unfold lowerC
  split_ifs with h
  · have hv : (c.toNat + 32).isValidChar := Or.inl (by omega)
    have ht : (Char.ofNat (c.toNat + 32)).toNat = c.toNat + 32 :=
      toNat_ofNat_valid _ hv
    have hA : isPySpace c = false := by
      simp only [isPySpace, Bool.or_eq_false_iff, beq_eq_false_iff_ne, ne_eq]
      omega
    have hB : isPySpace (Char.ofNat (c.toNat + 32)) = false := by
      simp only [isPySpace, ht, Bool.or_eq_false_iff, beq_eq_false_iff_ne, ne_eq]
      omega
    rw [hA, hB]
  · rfl

theorem dropWhile_map_comm (f : Char → Char) (q : Char → Bool)
    (hq : ∀ c, q (f c) = q c) (l : List Char) :
    (l.map f).dropWhile q = (l.dropWhile q).map f := by
  induction l with
  | nil => rfl
  | cons a t ih =>
    simp only [List.map_cons, List.dropWhile_cons, hq a]
    cases ha : q a with
    | true => simpa [ha] using ih
    | false => simp [ha]

theorem stripChars_map_lowerC (l : List Char) :
    stripChars (l.map lowerC) = (stripChars l).map lowerC := by
  unfold stripChars
  rw [dropWhile_map_comm lowerC isPySpace lowerC_space l, ← List.map_reverse,
      dropWhile_map_comm lowerC isPySpace lowerC_space, ← List.map_reverse]

theorem containsL_dropWhile (q : Char → Bool) (c : Char) (cs l₁ l₂ : List Char)
    (hc : q c = false) :
    containsL (c :: cs) ((l₁ ++ (c :: cs) ++ l₂).dropWhile q) = true := by
  induction l₁ with
  | nil =>
    simp only [List.nil_append, List.cons_append, List.dropWhile_cons, hc,
      Bool.false_eq_true, if_false]
    rw [containsL_iff]
    exact ⟨[], l₂, by simp⟩
  | cons a t ih =>
    simp only [List.cons_append, List.dropWhile_cons]
    cases ha : q a with
    | true =>
      simp only [if_true]
      simpa using ih
    | false =>
      simp only [Bool.false_eq_true, if_false]
      rw [containsL_iff]
      exact ⟨a :: t, l₂, by simp⟩

theorem containsL_reverse (pat l : List Char) (h : containsL pat l = true) :
    containsL pat.reverse l.reverse = true := by
  rw [containsL_iff] at h ⊢
  obtain ⟨l₁, l₂, rfl⟩ := h
  exact ⟨l₂.reverse, l₁.reverse, by simp⟩

theorem containsL_stripChars (pat l : List Char) (c c' : Char) (cs cs' : List Char)
    (hpat : pat = c :: cs) (hrev : pat.reverse = c' :: cs')
    (hc : isPySpace c = false) (hc' : isPySpace c' = false)
    (h : containsL pat l = true) :
    containsL pat (stripChars l) = true := by
  have h1 : containsL pat (l.dropWhile isPySpace) = true := by
    obtain ⟨l₁, l₂, hl⟩ := (containsL_iff _ _).mp h
    subst hpat
    rw [hl]
    exact containsL_dropWhile _ _ _ _ _ hc
  have h2 : containsL pat.reverse (l.dropWhile isPySpace).reverse = true :=
    containsL_reverse _ _ h1
  have h3 : containsL pat.reverse
      (((l.dropWhile isPySpace).reverse).dropWhile isPySpace) = true := by
    obtain ⟨l₁, l₂, hl⟩ := (containsL_iff _ _).mp h2
    rw [hrev] at hl ⊢
    rw [hl]
    exact containsL_dropWhile _ _ _ _ _ hc'
  have h4 := containsL_reverse _ _ h3
  rw [List.reverse_reverse] at h4
  unfold stripChars
  exact h4

theorem emergencyPhrases_ok :
    ∀ ph ∈ emergencyPhrases, ph.data ≠ [] ∧
      isPySpace ph.data.headI = false ∧
      isPySpace ph.data.reverse.headI = false := by decide

/-- C4: for every payload whose raw user text matches the emergency
pattern, `invoke` returns the fixed safety string and the graph (the
language model and every tool) is never entered: the check happens on
the user text before the state machine. -/
theorem emergency_short_circuit (p : Payload) (g : List OutMsg)
    (h : is_emergency (payloadText p) = true) :
    invoke g p = ⟨"Call 911 now.", false⟩ := by
  have hstrip : is_emergency (pyStrip (payloadText p)) = true := by
    unfold is_emergency at h ⊢
    rw [List.any_eq_true] at h ⊢
    obtain ⟨ph, hmem, hcont⟩ := h
    refine ⟨ph, hmem, ?_⟩
    have hdata : (pyStrip (payloadText p)).data =
        stripChars (payloadText p).data := rfl
    rw [hdata, ← stripChars_map_lowerC]
    obtain ⟨hne, hhead, hlast⟩ := emergencyPhrases_ok ph hmem
    obtain ⟨c, cs, hd⟩ := List.exists_cons_of_ne_nil hne
    have hrne : ph.data.reverse ≠ [] := by simp [hd]
    obtain ⟨c', cs', hr⟩ := List.exists_cons_of_ne_nil hrne
    have hhead' : isPySpace c = false := by rw [hd] at hhead; exact hhead
    have hlast' : isPySpace c' = false := by rw [hr] at hlast; exact hlast
    have hrv : (c :: cs).reverse = c' :: cs' := by rw [← hd, hr]
    rw [hd] at hcont ⊢
    exact containsL_stripChars _ _ c c' cs cs' rfl hrv hhead' hlast' hcont
  have hne : ¬((pyStrip (payloadText p)).data.isEmpty = true) := by
    intro hnil
    rw [List.isEmpty_iff] at hnil
    unfold is_emergency at hstrip
    rw [List.any_eq_true] at hstrip
    obtain ⟨ph, hmem, hcont⟩ := hstrip
    rw [hnil] at hcont
    obtain ⟨hne', -, -⟩ := emergencyPhrases_ok ph hmem
    obtain ⟨c, cs, hd⟩ := List.exists_cons_of_ne_nil hne'
    rw [hd] at hcont
    simp [containsL, startsWithL] at hcont
  unfold invoke
  rw [if_neg hne, if_pos hstrip]

/-- Witness for C4 on a concrete emergency input. -/
theorem emergency_short_circuit_witness :
    is_emergency (payloadText ⟨some "There is a GUN in my house", none⟩) = true ∧
    invoke [⟨some "assistant", none, "ignored"⟩]
      ⟨some "There is a GUN in my house", none⟩ = ⟨"Call 911 now.", false⟩ :=
  ⟨by decide, emergency_short_circuit _ _ (by decide)⟩

end CityAssist
